import Mathlib

/-!
Client service (src/index.js): a shallow embedding.

The service is one JavaScript module.  Its functions are embedded here as
programs of a small effect monad `Js`:

* a program may throw a JavaScript value (`Except JsVal`),
* it reads and assigns the module-level variable `channel` (`World`),
* every call that leaves the process (console, Lambda, DynamoDB, RabbitMQ,
  HTTP response, `listen`) is appended to a trace of `Effect`s, in program
  order.

The outcomes of calls into the outside world (the Lambda invocation, the
broker, the store, `JSON.parse`, `JSON.stringify`) are not decided by the
module; they are fields of `Env` and of the `Connection` and `Channel`
handles, so every theorem quantifies over them.
-/

namespace ClientService

/-! ## JavaScript values -/

/-- The JavaScript values that flow through the module: `undefined`, the JSON
values produced by `JSON.parse` and `express.json()`, and error objects
(`exn kind arg` stands for `new kind(arg)`). -/
inductive JsVal where
  | undefined
  | null
  | bool (b : Bool)
  | num (q : Rat)
  | str (s : String)
  | arr (xs : List JsVal)
  | obj (props : List (String × JsVal))
  | exn (kind : String) (arg : JsVal)

instance : Inhabited JsVal := ⟨JsVal.undefined⟩

/-- The `TypeError` raised when a property is read from `undefined` or `null`. -/
def typeError (key : String) : JsVal :=
  .exn "TypeError" (.str key)

/-- `v` is `undefined` or `null`. -/
def JsVal.isNullish : JsVal → Bool
  | .undefined => true
  | .null => true
  | _ => false

/-- `v` is an object literal value (what a JSON text starting with a brace
parses to). -/
def JsVal.isObject : JsVal → Bool
  | .obj _ => true
  | _ => false

/-- JavaScript truthiness (`ToBoolean`), as used by `if (x)`. -/
def truthy : JsVal → Bool
  | .undefined => false
  | .null => false
  | .bool b => b
  | .num q => decide (q ≠ 0)
  | .str s => decide (s ≠ "")
  | .arr _ => true
  | .obj _ => true
  | .exn _ _ => true

/-- The value of `v[key]` for a `v` that is not nullish: the own property of an
object, `undefined` when it is absent.  None of the property names this module
reads (`ci`, `firstName`, `lastName`, `phone`, `address`, `Payload`,
`errorMessage`, `body`, `secret`, `AWS_ACCESS_KEY_ID`,
`AWS_SECRET_ACCESS_KEY`) is defined on a primitive, an array or an error, so
those yield `undefined`. -/
def field (v : JsVal) (key : String) : JsVal :=
  match v with
  | .obj props => (props.lookup key).getD .undefined
  | _ => .undefined

/-- The object `v` has an own property `key`. -/
def hasField (v : JsVal) (key : String) : Bool :=
  match v with
  | .obj props => (props.lookup key).isSome
  | _ => false

/-- Property read `v.key` (also one step of a destructuring pattern): a
`TypeError` on `undefined` and `null`, otherwise `field v key`. -/
def getProp (v : JsVal) (key : String) : Except JsVal JsVal :=
  if v.isNullish then .error (typeError key) else .ok (field v key)

/-! ## Effects, handles and the environment -/

/-- A call that leaves the process, as recorded in the trace. -/
inductive Effect where
  | consoleLog (msg : String) (arg : JsVal)
  | consoleError (msg : String) (arg : JsVal)
  | lambdaInvoke (functionName : String)
  | appUse (what : String)
  | awsConfigUpdate (region : String) (accessKeyId secretAccessKey : JsVal)
  | newDocumentClient
  | amqpConnect (uri : String)
  | createChannel
  | assertQueue (queue : String) (durable : Bool)
  | route (method path : String)
  | listen (port : Nat)
  | dynamoPut (tableName : String) (item : JsVal) (outcome : Except JsVal Unit)
  | publishEvent (eventType : String) (data : JsVal)
  | sendToQueue (queue : String) (content : String) (persistent : Bool)
  | respond (status : Nat) (body : JsVal)

/-- An amqplib channel: the outcome of each of the two calls the module makes
on it (`.error e` when the call throws or rejects with `e`). -/
structure Channel where
  assertQueue : String → Bool → Except JsVal Unit
  sendToQueue : String → String → Bool → Except JsVal Bool

/-- An amqplib connection: the outcome of `createChannel()`. -/
structure Connection where
  createChannel : Except JsVal Channel

/-- The outside world as the module sees it. -/
structure Env where
  /-- `lambda.invoke(FunctionName).promise()`. -/
  lambdaInvoke : String → Except JsVal JsVal
  /-- `JSON.parse`. -/
  jsonParse : JsVal → Except JsVal JsVal
  /-- `JSON.stringify`. -/
  jsonStringify : JsVal → Except JsVal String
  /-- `amqp.connect(uri)`. -/
  amqpConnect : String → Except JsVal Connection
  /-- `dynamoDB.put(TableName, Item).promise()`. -/
  dynamoPut : String → JsVal → Except JsVal Unit

/-- The mutable state of the module: the variable `channel` declared by
`let channel;` (`none` is `undefined`). -/
structure World where
  channel : Option Channel

/-- What running a program from a world gives: a value or a thrown error, the
world afterwards, and the effects performed, oldest first. -/
structure Outcome (α : Type) where
  result : Except JsVal α
  world : World
  trace : List Effect

/-- Programs of the module. -/
def Js (α : Type) : Type := World → Outcome α

namespace Js

/-- Return a value. -/
def ret {α : Type} (a : α) : Js α := fun w => ⟨.ok a, w, []⟩

/-- Sequencing: an error of the first program skips the second; effects and
assignments of the first program are kept either way. -/
def andThen {α β : Type} (m : Js α) (f : α → Js β) : Js β := fun w =>
  match m w with
  | ⟨.ok a, w1, t1⟩ =>
    match f a w1 with
    | ⟨r, w2, t2⟩ => ⟨r, w2, t1 ++ t2⟩
  | ⟨.error e, w1, t1⟩ => ⟨.error e, w1, t1⟩

/-- The statement `throw e`. -/
def raise {α : Type} (e : JsVal) : Js α := fun w => ⟨.error e, w, []⟩

/-- The statement `try m catch (e) h e`: assignments made by `m` before it
threw are not undone. -/
def attempt {α : Type} (m : Js α) (h : JsVal → Js α) : Js α := fun w =>
  match m w with
  | ⟨.ok a, w1, t1⟩ => ⟨.ok a, w1, t1⟩
  | ⟨.error e, w1, t1⟩ =>
    match h e w1 with
    | ⟨r, w2, t2⟩ => ⟨r, w2, t1 ++ t2⟩

end Js

instance : Monad Js where
  pure := Js.ret
  bind := Js.andThen

instance : MonadExcept JsVal Js where
  throw := Js.raise
  tryCatch := Js.attempt

/-- Perform one effect. -/
def emit (e : Effect) : Js Unit := fun w => ⟨.ok (), w, [e]⟩

/-- Await a call whose outcome the environment decides. -/
def settle {α : Type} (r : Except JsVal α) : Js α := fun w => ⟨r, w, []⟩

/-- Read the variable `channel`. -/
def readChannel : Js (Option Channel) := fun w => ⟨.ok w.channel, w, []⟩

/-- Assign the variable `channel`. -/
def assignChannel (ch : Channel) : Js Unit := fun _ => ⟨.ok (), ⟨some ch⟩, []⟩

/-! ## Constants of the module -/

def region : String := "us-east-2"
def lambdaFunctionName : String := "fetchSecretsFunction_gr8"
def port : Nat := 8094
def brokerUri : String := "amqp://3.136.72.14:5672/"
def queueName : String := "client-events"
def tableName : String := "Clients_gr8"

/-! ## The functions of the module -/

/-- Lines 13-31, `getSecretFromLambda`. -/
def getSecretFromLambda (env : Env) : Js JsVal :=
  try
    emit (.lambdaInvoke lambdaFunctionName)
    let response ← settle (env.lambdaInvoke lambdaFunctionName)
    let rawPayload ← settle (getProp response "Payload")
    let payload ← settle (env.jsonParse rawPayload)
    let errorMessage ← settle (getProp payload "errorMessage")
    if truthy errorMessage then
      throw (JsVal.exn "Error" errorMessage)
    let rawBody ← settle (getProp payload "body")
    let body ← settle (env.jsonParse rawBody)
    let rawSecret ← settle (getProp body "secret")
    settle (env.jsonParse rawSecret)
  catch error =>
    emit (.consoleError "Error invoking Lambda function:" error)
    throw error

/-- Lines 76-85, `connectRabbitMQ`. -/
def connectRabbitMQ (env : Env) : Js Unit :=
  try
    emit (.amqpConnect brokerUri)
    let connection ← settle (env.amqpConnect brokerUri)
    emit .createChannel
    let created ← settle connection.createChannel
    assignChannel created
    emit (.assertQueue queueName true)
    settle (created.assertQueue queueName true)
    emit (.consoleLog "Connected to RabbitMQ" .undefined)
  catch error =>
    emit (.consoleError "Error connecting to RabbitMQ:" error)

/-- The object `(eventType, data)` built on line 89. -/
def eventOf (eventType : String) (data : JsVal) : JsVal :=
  .obj [("eventType", .str eventType), ("data", data)]

/-- Lines 88-100, `publishEvent`.  The first effect marks the call itself. -/
def publishEvent (env : Env) (eventType : String) (data : JsVal) : Js Unit := do
  emit (.publishEvent eventType data)
  let event := eventOf eventType data
  try
    match (← readChannel) with
    | some ch =>
      let content ← settle (env.jsonStringify event)
      emit (.sendToQueue queueName content true)
      let _ ← settle (ch.sendToQueue queueName content true)
      emit (.consoleLog "Event published to RabbitMQ:" event)
    | none =>
      emit (.consoleError "Channel is not initialized" .undefined)
  catch error =>
    emit (.consoleError "Error publishing event to RabbitMQ:" error)

/-- The object literal `(ci, firstName, lastName, phone, address)` written
three times in the handler (lines 167-173, 179 and 181). -/
def clientOf (ci firstName lastName phone address : JsVal) : JsVal :=
  .obj [("ci", ci), ("firstName", firstName), ("lastName", lastName),
        ("phone", phone), ("address", address)]

/-- `dynamoDB.put(params).promise()`: the call is recorded with its outcome. -/
def dynamoPut (env : Env) (table : String) (item : JsVal) : Js Unit := do
  emit (.dynamoPut table item (env.dynamoPut table item))
  settle (env.dynamoPut table item)

/-- Lines 159-186, the handler of `POST /clients`, run on `req.body`.  The
destructuring on line 160 stands before the `try`. -/
def postClients (env : Env) (reqBody : JsVal) : Js Unit := do
  let ci ← settle (getProp reqBody "ci")
  let firstName ← settle (getProp reqBody "firstName")
  let lastName ← settle (getProp reqBody "lastName")
  let phone ← settle (getProp reqBody "phone")
  let address ← settle (getProp reqBody "address")
  emit (.consoleLog "Received request to create client:" reqBody)
  try
    dynamoPut env tableName (clientOf ci firstName lastName phone address)
    publishEvent env "ClientCreated" (clientOf ci firstName lastName phone address)
    emit (.respond 201 (clientOf ci firstName lastName phone address))
  catch error =>
    emit (.consoleError "Error creating client:" error)
    emit (.respond 500 (.obj [("message", .str "Error creating client"), ("error", error)]))

/-- Lines 34-195, `startService`.  The `return` inside the first `catch` leaves
the function; everything else runs only when the fetch succeeded. -/
def startService (env : Env) : Js Unit := fun w =>
  match getSecretFromLambda env w with
  | ⟨.error error, w1, t1⟩ =>
    ⟨.ok (), w1, t1 ++ [.consoleError "Error starting service: " error]⟩
  | ⟨.ok secrets, w1, t1⟩ =>
    let rest : Js Unit := do
      emit (.appUse "cors")
      emit (.appUse "express.json")
      let accessKeyId ← settle (getProp secrets "AWS_ACCESS_KEY_ID")
      let secretAccessKey ← settle (getProp secrets "AWS_SECRET_ACCESS_KEY")
      emit (.awsConfigUpdate region accessKeyId secretAccessKey)
      emit .newDocumentClient
      emit (.appUse "/api-docs")
      connectRabbitMQ env
      emit (.route "POST" "/clients")
      emit (.route "GET" "/")
      emit (.listen port)
      emit (.consoleLog "Client service listening at http://localhost:8094" .undefined)
    match rest w1 with
    | ⟨r, w2, t2⟩ => ⟨r, w2, t1 ++ t2⟩

/-! ## Reading a trace -/

/-- The five client fields as the handler reads them from a request body that
is not nullish. -/
def itemOf (reqBody : JsVal) : JsVal :=
  clientOf (field reqBody "ci") (field reqBody "firstName") (field reqBody "lastName")
    (field reqBody "phone") (field reqBody "address")

/-- The HTTP responses sent, oldest first: status and body. -/
def responses : List Effect → List (Nat × JsVal)
  | [] => []
  | .respond status body :: rest => (status, body) :: responses rest
  | _ :: rest => responses rest

/-- The store writes requested, oldest first: table name and item. -/
def storePuts : List Effect → List (String × JsVal)
  | [] => []
  | .dynamoPut table item _ :: rest => (table, item) :: storePuts rest
  | _ :: rest => storePuts rest

/-- The calls of `publishEvent`, oldest first: event type and data. -/
def publishCalls : List Effect → List (String × JsVal)
  | [] => []
  | .publishEvent eventType data :: rest => (eventType, data) :: publishCalls rest
  | _ :: rest => publishCalls rest

/-- The `sendToQueue` calls, oldest first: queue, content, persistent flag. -/
def queueSends : List Effect → List (String × String × Bool)
  | [] => []
  | .sendToQueue queue content persistent :: rest =>
    (queue, content, persistent) :: queueSends rest
  | _ :: rest => queueSends rest

/-- The ports passed to `app.listen`, oldest first. -/
def listens : List Effect → List Nat
  | [] => []
  | .listen p :: rest => p :: listens rest
  | _ :: rest => listens rest

/-- The calls made to the broker while connecting (`amqp.connect`,
`createChannel`, `assertQueue`), oldest first. -/
def brokerSetup : List Effect → List Effect
  | [] => []
  | .amqpConnect uri :: rest => .amqpConnect uri :: brokerSetup rest
  | .createChannel :: rest => .createChannel :: brokerSetup rest
  | .assertQueue queue durable :: rest => .assertQueue queue durable :: brokerSetup rest
  | _ :: rest => brokerSetup rest

/-- The store configuration steps (`AWS.config.update`, the document client),
oldest first. -/
def storeSetup : List Effect → List Effect
  | [] => []
  | .awsConfigUpdate r a k :: rest => .awsConfigUpdate r a k :: storeSetup rest
  | .newDocumentClient :: rest => .newDocumentClient :: storeSetup rest
  | _ :: rest => storeSetup rest

/-- The world in which the module starts: `let channel;` leaves `channel`
undefined. -/
def World.initial : World := ⟨none⟩

/-! ## Concrete environments -/

/-- The request body of the documented scenario. -/
def scenarioBody : JsVal :=
  .obj [("ci", .str "1726647066"), ("firstName", .str "Christopher"),
        ("lastName", .str "Pallo"), ("phone", .str "0995312828"),
        ("address", .str "Condado")]

/-- The JSON text of the scenario event:
`{"eventType":"ClientCreated","data":{"ci":"1726647066","firstName":"Christopher","lastName":"Pallo","phone":"0995312828","address":"Condado"}}`. -/
def scenarioEventText : String :=
  "\x7b\"eventType\":\"ClientCreated\",\"data\":\x7b\"ci\":\"1726647066\",\"firstName\":\"Christopher\",\"lastName\":\"Pallo\",\"phone\":\"0995312828\",\"address\":\"Condado\"\x7d\x7d"

/-- The text `{}`. -/
def emptyObjectText : String := "\x7b\x7d"

/-- The text `{"secret":"{}"}`. -/
def bodyText : String := "\x7b\"secret\":\"\x7b\x7d\"\x7d"

/-- The text `{"body":"{\"secret\":\"{}\"}"}`. -/
def payloadText : String := "\x7b\"body\":\"\x7b\\\"secret\\\":\\\"\x7b\x7d\\\"\x7d\"\x7d"

/-- The text `{"secret":"null"}`. -/
def nullSecretBodyText : String := "\x7b\"secret\":\"null\"\x7d"

/-- The text `{"body":"{\"secret\":\"null\"}"}`. -/
def nullSecretPayloadText : String := "\x7b\"body\":\"\x7b\\\"secret\\\":\\\"null\\\"\x7d\"\x7d"

/-- The text `{"errorMessage":"","body":"{\"secret\":\"{}\"}"}`. -/
def emptyMessagePayloadText : String :=
  "\x7b\"errorMessage\":\"\",\"body\":\"\x7b\\\"secret\\\":\\\"\x7b\x7d\\\"\x7d\"\x7d"

/-- The text `{"errorMessage":"boom"}`. -/
def failedPayloadText : String := "\x7b\"errorMessage\":\"boom\"\x7d"

/-- What `JSON.parse` returns on the JSON texts used below. -/
def jsonParseRows : List (String × JsVal) :=
  [ (emptyObjectText, .obj []),
    (bodyText, .obj [("secret", .str emptyObjectText)]),
    (payloadText, .obj [("body", .str bodyText)]),
    ("null", .null),
    (nullSecretBodyText, .obj [("secret", .str "null")]),
    (nullSecretPayloadText, .obj [("body", .str nullSecretBodyText)]),
    (emptyMessagePayloadText, .obj [("errorMessage", .str ""), ("body", .str bodyText)]),
    (failedPayloadText, .obj [("errorMessage", .str "boom")]) ]

/-- A finite table of `JSON.parse`: its value on the texts of `jsonParseRows`,
a `SyntaxError` on `undefined` and on the other strings the examples pass. -/
def jsonParseTable : JsVal → Except JsVal JsVal
  | .str s =>
    match jsonParseRows.lookup s with
    | some v => .ok v
    | none => .error (.exn "SyntaxError" (.str s))
  | v => .error (.exn "SyntaxError" v)

/-- A finite table of `JSON.stringify`: the text of the scenario event. -/
def jsonStringifyTable : JsVal → Except JsVal String
  | .obj [("eventType", .str "ClientCreated"),
          ("data", .obj [("ci", .str "1726647066"), ("firstName", .str "Christopher"),
             ("lastName", .str "Pallo"), ("phone", .str "0995312828"),
             ("address", .str "Condado")])] => .ok scenarioEventText
  | v => .error (.exn "TypeError" v)

/-- A channel on which both calls succeed. -/
def openChannel : Channel :=
  ⟨fun _ _ => .ok (), fun _ _ _ => .ok true⟩

/-- A channel whose queue declaration is refused while sends are accepted. -/
def undeclaredChannel : Channel :=
  ⟨fun _ _ => .error (.exn "Error" (.str "assertQueue failed")), fun _ _ _ => .ok true⟩

/-- A channel on which `sendToQueue` throws. -/
def closedChannel : Channel :=
  ⟨fun _ _ => .ok (), fun _ _ _ => .error (.exn "IllegalOperationError" (.str "Channel closed"))⟩

/-- An environment whose Lambda answers with `Payload = text`, whose broker
answers `broker` and whose store answers `store`. -/
def envOf (text : String) (broker : Except JsVal Connection) (store : Except JsVal Unit) :
    Env where
  lambdaInvoke := fun _ => .ok (.obj [("StatusCode", .num 200), ("Payload", .str text)])
  jsonParse := jsonParseTable
  jsonStringify := jsonStringifyTable
  amqpConnect := fun _ => broker
  dynamoPut := fun _ _ => store

/-- Everything succeeds. -/
def happyEnv : Env := envOf payloadText (.ok ⟨.ok openChannel⟩) (.ok ())

/-- The store rejects every write. -/
def storeDownEnv : Env :=
  envOf payloadText (.ok ⟨.ok openChannel⟩) (.error (.exn "Error" (.str "store down")))

/-- The broker cannot be reached. -/
def brokerDownEnv : Env :=
  envOf payloadText (.error (.exn "Error" (.str "ECONNREFUSED"))) (.ok ())

/-- The broker hands out a channel but refuses the queue declaration. -/
def queueRefusedEnv : Env := envOf payloadText (.ok ⟨.ok undeclaredChannel⟩) (.ok ())

/-- The Lambda answers with a secret whose text is `null`. -/
def nullSecretEnv : Env := envOf nullSecretPayloadText (.ok ⟨.ok openChannel⟩) (.ok ())

/-- The Lambda answers with an empty `errorMessage` next to a usable body. -/
def emptyMessageEnv : Env := envOf emptyMessagePayloadText (.ok ⟨.ok openChannel⟩) (.ok ())

/-- The Lambda answers with the payload text `null`. -/
def nullPayloadEnv : Env := envOf "null" (.ok ⟨.ok openChannel⟩) (.ok ())

/-- The Lambda invocation itself is rejected. -/
def lambdaDownEnv : Env :=
  { happyEnv with lambdaInvoke := fun _ => .error (.exn "Error" (.str "AccessDenied")) }

/-! ## Unfolding the monad -/

@[simp] theorem bind_eq {α β : Type} (m : Js α) (f : α → Js β) :
    (m >>= f) = Js.andThen m f := rfl

@[simp] theorem pure_eq {α : Type} (a : α) : (pure a : Js α) = Js.ret a := rfl

@[simp] theorem throw_eq {α : Type} (e : JsVal) : (throw e : Js α) = Js.raise e := rfl

@[simp] theorem tryCatch_eq {α : Type} (m : Js α) (h : JsVal → Js α) :
    (tryCatch m h) = Js.attempt m h := rfl

/-! ## Trace projections and concatenation -/

theorem responses_append (a b : List Effect) :
    responses (a ++ b) = responses a ++ responses b := by
  induction a with
  | nil => rfl
  | cons x xs ih => cases x <;> simp [responses, ih]

theorem storePuts_append (a b : List Effect) :
    storePuts (a ++ b) = storePuts a ++ storePuts b := by
  induction a with
  | nil => rfl
  | cons x xs ih => cases x <;> simp [storePuts, ih]

theorem publishCalls_append (a b : List Effect) :
    publishCalls (a ++ b) = publishCalls a ++ publishCalls b := by
  induction a with
  | nil => rfl
  | cons x xs ih => cases x <;> simp [publishCalls, ih]

theorem queueSends_append (a b : List Effect) :
    queueSends (a ++ b) = queueSends a ++ queueSends b := by
  induction a with
  | nil => rfl
  | cons x xs ih => cases x <;> simp [queueSends, ih]

theorem listens_append (a b : List Effect) :
    listens (a ++ b) = listens a ++ listens b := by
  induction a with
  | nil => rfl
  | cons x xs ih => cases x <;> simp [listens, ih]

theorem brokerSetup_append (a b : List Effect) :
    brokerSetup (a ++ b) = brokerSetup a ++ brokerSetup b := by
  induction a with
  | nil => rfl
  | cons x xs ih => cases x <;> simp [brokerSetup, ih]

theorem storeSetup_append (a b : List Effect) :
    storeSetup (a ++ b) = storeSetup a ++ storeSetup b := by
  induction a with
  | nil => rfl
  | cons x xs ih => cases x <;> simp [storeSetup, ih]

/-! ## `publishEvent` -/

/-- With no channel, `publishEvent` logs and returns. -/
theorem publishEvent_unset (env : Env) (eventType : String) (data : JsVal) :
    publishEvent env eventType data ⟨none⟩ =
      ⟨.ok (), ⟨none⟩,
        [.publishEvent eventType data,
         .consoleError "Channel is not initialized" .undefined]⟩ := rfl

/-- With a channel and a serialisation that throws, nothing is sent. -/
theorem publishEvent_unserialisable (env : Env) (eventType : String) (data : JsVal)
    (ch : Channel) (e : JsVal) (h : env.jsonStringify (eventOf eventType data) = .error e) :
    publishEvent env eventType data ⟨some ch⟩ =
      ⟨.ok (), ⟨some ch⟩,
        [.publishEvent eventType data,
         .consoleError "Error publishing event to RabbitMQ:" e]⟩ := by
  simp [publishEvent, Js.andThen, Js.attempt, settle, emit, readChannel, h]

/-- With a channel and a serialisation `s`, `sendToQueue` is called once. -/
theorem publishEvent_sends (env : Env) (eventType : String) (data : JsVal)
    (ch : Channel) (s : String) (h : env.jsonStringify (eventOf eventType data) = .ok s) :
    ∃ last, publishEvent env eventType data ⟨some ch⟩ =
      ⟨.ok (), ⟨some ch⟩,
        [.publishEvent eventType data, .sendToQueue queueName s true, last]⟩ ∧
      responses [last] = [] ∧ storePuts [last] = [] ∧ queueSends [last] = [] ∧
      publishCalls [last] = [] := by
  cases h2 : ch.sendToQueue queueName s true with
  | error e2 =>
    refine ⟨.consoleError "Error publishing event to RabbitMQ:" e2, ?_, rfl, rfl, rfl, rfl⟩
    simp [publishEvent, Js.andThen, Js.attempt, settle, emit, readChannel, h, h2]
  | ok b =>
    refine ⟨.consoleLog "Event published to RabbitMQ:" (eventOf eventType data), ?_,
      rfl, rfl, rfl, rfl⟩
    simp [publishEvent, Js.andThen, Js.attempt, settle, emit, readChannel, h, h2]

/-- In every world `publishEvent` returns normally and leaves `channel` as it was. -/
theorem publishEvent_returns (env : Env) (eventType : String) (data : JsVal) (w : World) :
    (publishEvent env eventType data w).result = .ok () ∧
    (publishEvent env eventType data w).world = w := by
  obtain ⟨ch⟩ := w
  cases ch with
  | none => exact ⟨rfl, rfl⟩
  | some ch =>
    cases h : env.jsonStringify (eventOf eventType data) with
    | error e => rw [publishEvent_unserialisable env eventType data ch e h]; exact ⟨rfl, rfl⟩
    | ok s =>
      obtain ⟨last, hrun, -⟩ := publishEvent_sends env eventType data ch s h
      rw [hrun]; exact ⟨rfl, rfl⟩

/-- What `publishEvent` leaves in the trace, seen through the projections. -/
theorem publishEvent_trace (env : Env) (eventType : String) (data : JsVal) (w : World) :
    responses (publishEvent env eventType data w).trace = [] ∧
    storePuts (publishEvent env eventType data w).trace = [] ∧
    publishCalls (publishEvent env eventType data w).trace = [(eventType, data)] := by
  obtain ⟨ch⟩ := w
  cases ch with
  | none => exact ⟨rfl, rfl, rfl⟩
  | some ch =>
    cases h : env.jsonStringify (eventOf eventType data) with
    | error e =>
      rw [publishEvent_unserialisable env eventType data ch e h]; exact ⟨rfl, rfl, rfl⟩
    | ok s =>
      obtain ⟨last, hrun, h1, h2, -, h4⟩ := publishEvent_sends env eventType data ch s h
      rw [hrun]
      refine ⟨?_, ?_, ?_⟩
      · exact h1
      · exact h2
      · show (eventType, data) :: publishCalls [last] = _
        rw [h4]

/-! ## The handler of `POST /clients` -/

/-- A nullish `req.body` makes the destructuring on line 160 throw. -/
theorem postClients_nullish (env : Env) (body : JsVal) (w : World)
    (h : body.isNullish = true) :
    postClients env body w = ⟨.error (typeError "ci"), w, []⟩ := by
  simp only [postClients, bind_eq, Js.andThen, settle, getProp, h, if_true]

/-- The run of the handler when the store write fails. -/
theorem postClients_put_error (env : Env) (body : JsVal) (w : World) (e : JsVal)
    (h : body.isNullish = false)
    (hput : env.dynamoPut tableName (itemOf body) = .error e) :
    postClients env body w = ⟨.ok (), w,
      [.consoleLog "Received request to create client:" body,
       .dynamoPut tableName (itemOf body) (.error e),
       .consoleError "Error creating client:" e,
       .respond 500 (.obj [("message", .str "Error creating client"), ("error", e)])]⟩ := by
  simp only [itemOf] at hput
  simp [postClients, Js.andThen, Js.attempt, settle, getProp, h, emit, dynamoPut, hput, itemOf]

/-- The run of the handler when the store write succeeds. -/
theorem postClients_put_ok (env : Env) (body : JsVal) (w : World)
    (h : body.isNullish = false)
    (hput : env.dynamoPut tableName (itemOf body) = .ok ()) :
    postClients env body w = ⟨.ok (), w,
      [.consoleLog "Received request to create client:" body,
       .dynamoPut tableName (itemOf body) (.ok ())] ++
       (publishEvent env "ClientCreated" (itemOf body) w).trace ++
       [.respond 201 (itemOf body)]⟩ := by
  simp only [itemOf] at hput
  obtain ⟨ch⟩ := w
  cases ch with
  | none =>
    simp [postClients, Js.andThen, Js.attempt, settle, getProp, h, emit, dynamoPut, hput,
      itemOf, publishEvent_unset]
  | some ch =>
    cases h1 : env.jsonStringify (eventOf "ClientCreated" (itemOf body)) with
    | error e1 =>
      simp only [itemOf] at h1
      simp [postClients, publishEvent, Js.andThen, Js.attempt, settle, getProp, h, emit,
        dynamoPut, hput, itemOf, readChannel, h1]
    | ok s =>
      simp only [itemOf] at h1
      cases h2 : ch.sendToQueue queueName s true with
      | error e2 =>
        simp [postClients, publishEvent, Js.andThen, Js.attempt, settle, getProp, h, emit,
          dynamoPut, hput, itemOf, readChannel, h1, h2]
      | ok b =>
        simp [postClients, publishEvent, Js.andThen, Js.attempt, settle, getProp, h, emit,
          dynamoPut, hput, itemOf, readChannel, h1, h2]

/-- A store write found in a trace is among its `storePuts`. -/
theorem mem_storePuts (t : List Effect) (tbl : String) (item : JsVal)
    (r : Except JsVal Unit) (h : Effect.dynamoPut tbl item r ∈ t) :
    (tbl, item) ∈ storePuts t := by
  induction t with
  | nil => cases h
  | cons x xs ih =>
    rcases List.mem_cons.mp h with rfl | h2
    · simp [storePuts]
    · cases x <;> simp [storePuts, ih h2]

/-- An object is not nullish. -/
theorem not_nullish_of_isObject (v : JsVal) (h : v.isObject = true) :
    v.isNullish = false := by
  cases v <;> simp_all [JsVal.isObject, JsVal.isNullish]

/-- A successful store write in the handler trace: the body was destructured
and the write the handler issued is the one that succeeded. -/
theorem put_ok_of_mem (env : Env) (body : JsVal) (w : World) (tbl : String) (item : JsVal)
    (h : Effect.dynamoPut tbl item (.ok ()) ∈ (postClients env body w).trace) :
    body.isNullish = false ∧ env.dynamoPut tableName (itemOf body) = .ok () := by
  cases hn : body.isNullish with
  | true => rw [postClients_nullish env body w hn] at h; cases h
  | false =>
    refine ⟨rfl, ?_⟩
    cases hp : env.dynamoPut tableName (itemOf body) with
    | ok u => rfl
    | error e =>
      rw [postClients_put_error env body w e hn hp] at h
      simp at h

/-- A failed store write in the handler trace: the body was destructured and
the write the handler issued is the one that failed. -/
theorem put_error_of_mem (env : Env) (body : JsVal) (w : World) (tbl : String)
    (item e : JsVal)
    (h : Effect.dynamoPut tbl item (.error e) ∈ (postClients env body w).trace) :
    body.isNullish = false ∧ env.dynamoPut tableName (itemOf body) = .error e := by
  cases hn : body.isNullish with
  | true => rw [postClients_nullish env body w hn] at h; cases h
  | false =>
    refine ⟨rfl, ?_⟩
    cases hp : env.dynamoPut tableName (itemOf body) with
    | ok u =>
      rw [postClients_put_ok env body w hn hp] at h
      simp only [List.mem_append, List.mem_cons, List.mem_singleton] at h
      rcases h with (h | h) | h
      · simp at h
      · have hmem := mem_storePuts _ _ _ _ h
        rw [(publishEvent_trace env "ClientCreated" (itemOf body) w).2.1] at hmem
        cases hmem
      · simp at h
    | error e2 =>
      rw [postClients_put_error env body w e2 hn hp] at h
      simp at h
      rw [h.2.2]

/-- The responses of a run whose store write succeeded. -/
theorem responses_put_ok (env : Env) (body : JsVal) (w : World)
    (h : body.isNullish = false)
    (hput : env.dynamoPut tableName (itemOf body) = .ok ()) :
    responses (postClients env body w).trace = [(201, itemOf body)] := by
  rw [postClients_put_ok env body w h hput]
  simp only [responses_append, (publishEvent_trace env "ClientCreated" (itemOf body) w).1]
  rfl

/-- The store writes of a run whose store write succeeded. -/
theorem storePuts_put_ok (env : Env) (body : JsVal) (w : World)
    (h : body.isNullish = false)
    (hput : env.dynamoPut tableName (itemOf body) = .ok ()) :
    storePuts (postClients env body w).trace = [(tableName, itemOf body)] := by
  rw [postClients_put_ok env body w h hput]
  simp only [storePuts_append, (publishEvent_trace env "ClientCreated" (itemOf body) w).2.1]
  rfl

/-- The `publishEvent` calls of a run whose store write succeeded. -/
theorem publishCalls_put_ok (env : Env) (body : JsVal) (w : World)
    (h : body.isNullish = false)
    (hput : env.dynamoPut tableName (itemOf body) = .ok ()) :
    publishCalls (postClients env body w).trace = [("ClientCreated", itemOf body)] := by
  rw [postClients_put_ok env body w h hput]
  simp only [publishCalls_append,
    (publishEvent_trace env "ClientCreated" (itemOf body) w).2.2]
  rfl

/-- The queue sends of a run whose store write succeeded are those of its
`publishEvent` call. -/
theorem queueSends_put_ok (env : Env) (body : JsVal) (w : World)
    (h : body.isNullish = false)
    (hput : env.dynamoPut tableName (itemOf body) = .ok ()) :
    queueSends (postClients env body w).trace =
      queueSends (publishEvent env "ClientCreated" (itemOf body) w).trace := by
  rw [postClients_put_ok env body w h hput]
  simp [queueSends_append, queueSends]

/-- The world after the handler is the world before it. -/
theorem postClients_world (env : Env) (body : JsVal) (w : World) :
    (postClients env body w).world = w := by
  cases hn : body.isNullish with
  | true => rw [postClients_nullish env body w hn]
  | false =>
    cases hp : env.dynamoPut tableName (itemOf body) with
    | ok u => rw [postClients_put_ok env body w hn hp]
    | error e => rw [postClients_put_error env body w e hn hp]

/-! ## Claims about the handler -/

/-- C1: for a request body that is a JSON object, when the store put succeeds
the handler sends exactly one response, with status 201 and a body made of the
fields `ci`, `firstName`, `lastName`, `phone`, `address`, each equal to the
field of that name of the request body. -/
theorem post_clients_created_echo (env : Env) (w : World) (body : JsVal)
    (hobj : body.isObject = true)
    (hput : env.dynamoPut tableName (itemOf body) = .ok ()) :
    ∃ reply, responses (postClients env body w).trace = [(201, reply)] ∧
      reply = .obj [("ci", field body "ci"), ("firstName", field body "firstName"),
        ("lastName", field body "lastName"), ("phone", field body "phone"),
        ("address", field body "address")] ∧
      field reply "ci" = field body "ci" ∧
      field reply "firstName" = field body "firstName" ∧
      field reply "lastName" = field body "lastName" ∧
      field reply "phone" = field body "phone" ∧
      field reply "address" = field body "address" := by
  refine ⟨itemOf body, responses_put_ok env body w (not_nullish_of_isObject body hobj) hput,
    rfl, rfl, rfl, rfl, rfl, rfl⟩

/-- C1 at the documented scenario: the body is echoed unchanged with 201. -/
theorem post_clients_created_echo_witness :
    scenarioBody.isObject = true ∧
    happyEnv.dynamoPut tableName (itemOf scenarioBody) = .ok () ∧
    ∃ reply, responses (postClients happyEnv scenarioBody World.initial).trace =
        [(201, reply)] ∧
      reply = .obj [("ci", field scenarioBody "ci"),
        ("firstName", field scenarioBody "firstName"),
        ("lastName", field scenarioBody "lastName"), ("phone", field scenarioBody "phone"),
        ("address", field scenarioBody "address")] ∧
      field reply "ci" = field scenarioBody "ci" ∧
      field reply "firstName" = field scenarioBody "firstName" ∧
      field reply "lastName" = field scenarioBody "lastName" ∧
      field reply "phone" = field scenarioBody "phone" ∧
      field reply "address" = field scenarioBody "address" :=
  ⟨rfl, rfl, post_clients_created_echo happyEnv World.initial scenarioBody rfl rfl⟩

/-- C2: whenever the store put of a request raises an error `e`, the handler
sends exactly one response, with status 500 and the body
`(message: "Error creating client", error: e)`, `publishEvent` is not called and
nothing is sent to the queue. -/
theorem post_clients_store_failure (env : Env) (w : World) (body : JsVal)
    (tbl : String) (item e : JsVal)
    (hraised : Effect.dynamoPut tbl item (.error e) ∈ (postClients env body w).trace) :
    responses (postClients env body w).trace =
      [(500, .obj [("message", .str "Error creating client"), ("error", e)])] ∧
    publishCalls (postClients env body w).trace = [] ∧
    queueSends (postClients env body w).trace = [] := by
  obtain ⟨hn, hp⟩ := put_error_of_mem env body w tbl item e hraised
  rw [postClients_put_error env body w e hn hp]
  exact ⟨rfl, rfl, rfl⟩

/-- C2 at the documented scenario with a store that rejects the write. -/
theorem post_clients_store_failure_witness :
    responses (postClients storeDownEnv scenarioBody World.initial).trace =
      [(500, .obj [("message", .str "Error creating client"),
                   ("error", .exn "Error" (.str "store down"))])] ∧
    publishCalls (postClients storeDownEnv scenarioBody World.initial).trace = [] ∧
    queueSends (postClients storeDownEnv scenarioBody World.initial).trace = [] :=
  post_clients_store_failure storeDownEnv World.initial scenarioBody tableName
    scenarioBody (.exn "Error" (.str "store down")) (List.Mem.tail _ (List.Mem.head _))

/-- C3, amended: for every request whose body is not `undefined` or `null`
(line 160 destructures `req.body` before the `try`), the handler calls the store
put exactly once, with table
`Clients_gr8` and the item made of the five fields read from the body; no
publish, queue send or response comes before that call, a field absent from the
body is `undefined` in the item, and the item has no sixth field. -/
theorem post_clients_put_once_first (env : Env) (w : World) (body : JsVal)
    (hbody : body.isNullish = false) :
    ∃ item before after,
      item = .obj [("ci", field body "ci"), ("firstName", field body "firstName"),
        ("lastName", field body "lastName"), ("phone", field body "phone"),
        ("address", field body "address")] ∧
      (postClients env body w).trace =
        before ++ Effect.dynamoPut "Clients_gr8" item (env.dynamoPut "Clients_gr8" item)
          :: after ∧
      storePuts before = [] ∧ publishCalls before = [] ∧ queueSends before = [] ∧
      responses before = [] ∧ storePuts after = [] ∧
      storePuts (postClients env body w).trace = [("Clients_gr8", item)] ∧
      (∀ key, hasField body key = false → field body key = .undefined) := by
  have habsent : ∀ key, hasField body key = false → field body key = .undefined := by
    intro key hk
    cases body with
    | obj props =>
      simp only [hasField] at hk
      simp only [field]
      cases hl : List.lookup key props with
      | none => rfl
      | some v => rw [hl] at hk; cases hk
    | _ => rfl
  cases hp : env.dynamoPut tableName (itemOf body) with
  | ok u =>
    refine ⟨itemOf body, [.consoleLog "Received request to create client:" body],
      (publishEvent env "ClientCreated" (itemOf body) w).trace ++
        [.respond 201 (itemOf body)], rfl, ?_, rfl, rfl, rfl, rfl, ?_, ?_, habsent⟩
    · rw [postClients_put_ok env body w hbody hp]
      show _ = _ ++ Effect.dynamoPut tableName (itemOf body)
        (env.dynamoPut tableName (itemOf body)) :: _
      rw [hp]; simp
    · simp only [storePuts_append,
        (publishEvent_trace env "ClientCreated" (itemOf body) w).2.1]
      rfl
    · exact storePuts_put_ok env body w hbody hp
  | error e =>
    refine ⟨itemOf body, [.consoleLog "Received request to create client:" body],
      [.consoleError "Error creating client:" e,
       .respond 500 (.obj [("message", .str "Error creating client"), ("error", e)])],
      rfl, ?_, rfl, rfl, rfl, rfl, rfl, ?_, habsent⟩
    · rw [postClients_put_error env body w e hbody hp]
      show _ = _ ++ Effect.dynamoPut tableName (itemOf body)
        (env.dynamoPut tableName (itemOf body)) :: _
      rw [hp]; rfl
    · rw [postClients_put_error env body w e hbody hp]; rfl

/-- C3, amended, at the empty object: every field of the item is `undefined`. -/
theorem post_clients_put_once_first_witness :
    (JsVal.obj []).isNullish = false ∧
    storePuts (postClients happyEnv (.obj []) World.initial).trace =
      [("Clients_gr8", .obj [("ci", .undefined), ("firstName", .undefined),
        ("lastName", .undefined), ("phone", .undefined), ("address", .undefined)])] :=
  ⟨rfl, by
    obtain ⟨item, before, after, hitem, -, -, -, -, -, -, hputs, -⟩ :=
      post_clients_put_once_first happyEnv World.initial (.obj []) rfl
    rw [hputs, hitem]; rfl⟩

/-- C3 as stated fails: when `req.body` is `undefined` the destructuring throws
a `TypeError`, so the handler makes no store put and sends no response. -/
theorem post_clients_without_body :
    (postClients happyEnv .undefined World.initial).result = .error (typeError "ci") ∧
    storePuts (postClients happyEnv .undefined World.initial).trace = [] ∧
    responses (postClients happyEnv .undefined World.initial).trace = [] :=
  ⟨rfl, rfl, rfl⟩

/-- C4: for a request whose store put succeeded while `channel` is unset, the
store write was made, the handler answers 201 with the five echoed fields, no
message is sent to the queue, and the responses are those of the same request
handled with any connected channel. -/
theorem post_clients_channel_unset (env : Env) (w : World) (body : JsVal)
    (tbl : String) (item : JsVal)
    (hch : w.channel = none)
    (hput : Effect.dynamoPut tbl item (.ok ()) ∈ (postClients env body w).trace) :
    storePuts (postClients env body w).trace = [("Clients_gr8", itemOf body)] ∧
    responses (postClients env body w).trace =
      [(201, .obj [("ci", field body "ci"), ("firstName", field body "firstName"),
        ("lastName", field body "lastName"), ("phone", field body "phone"),
        ("address", field body "address")])] ∧
    queueSends (postClients env body w).trace = [] ∧
    ∀ ch : Channel,
      responses (postClients env body ⟨some ch⟩).trace =
        responses (postClients env body w).trace := by
  obtain ⟨hn, hp⟩ := put_ok_of_mem env body w tbl item hput
  obtain ⟨c⟩ := w
  simp only at hch
  subst hch
  refine ⟨storePuts_put_ok env body _ hn hp, responses_put_ok env body _ hn hp, ?_, ?_⟩
  · rw [queueSends_put_ok env body _ hn hp, publishEvent_unset]; rfl
  · intro ch
    rw [responses_put_ok env body _ hn hp, responses_put_ok env body _ hn hp]

/-- C4 at the documented scenario, before any broker connection. -/
theorem post_clients_channel_unset_witness :
    World.initial.channel = none ∧
    storePuts (postClients happyEnv scenarioBody World.initial).trace =
      [("Clients_gr8", scenarioBody)] ∧
    responses (postClients happyEnv scenarioBody World.initial).trace =
      [(201, scenarioBody)] ∧
    queueSends (postClients happyEnv scenarioBody World.initial).trace = [] :=
  have h := post_clients_channel_unset happyEnv World.initial scenarioBody tableName
    scenarioBody rfl (List.Mem.tail _ (List.Mem.head _))
  ⟨rfl, h.1, h.2.1, h.2.2.1⟩

/-- C5: `publishEvent` never throws: for every event type, data, channel state
and behaviour of `JSON.stringify` and `sendToQueue` it returns normally, and so
every request whose store put succeeded is answered 201 with the echoed fields,
whatever happened to the publish. -/
theorem publish_event_never_throws (env : Env) (w : World) (eventType : String)
    (data : JsVal) :
    (publishEvent env eventType data w).result = .ok () ∧
    ∀ (body : JsVal) (tbl : String) (item : JsVal),
      Effect.dynamoPut tbl item (.ok ()) ∈ (postClients env body w).trace →
        (postClients env body w).result = .ok () ∧
        responses (postClients env body w).trace = [(201, itemOf body)] := by
  refine ⟨(publishEvent_returns env eventType data w).1, ?_⟩
  intro body tbl item hput
  obtain ⟨hn, hp⟩ := put_ok_of_mem env body w tbl item hput
  refine ⟨?_, responses_put_ok env body w hn hp⟩
  rw [postClients_put_ok env body w hn hp]

/-- C5 on a channel whose `sendToQueue` throws: the publish returns normally and
the request is answered 201. -/
theorem publish_event_never_throws_witness :
    (publishEvent happyEnv "ClientCreated" scenarioBody ⟨some closedChannel⟩).result
      = .ok () ∧
    responses (postClients happyEnv scenarioBody ⟨some closedChannel⟩).trace =
      [(201, scenarioBody)] :=
  have h := publish_event_never_throws happyEnv ⟨some closedChannel⟩ "ClientCreated"
    scenarioBody
  ⟨h.1, (h.2 scenarioBody tableName scenarioBody (List.Mem.tail _ (List.Mem.head _))).2⟩

/-- C8: for a request whose store put succeeded while `channel` is set, and
with `content` the JSON serialisation of
`(eventType: "ClientCreated", data: (ci, firstName, lastName, phone, address))`,
`sendToQueue` is called exactly once, on queue `client-events`, with that
content and the persistent option; `data`, the item written to the store and
the response body are the same five field values. -/
theorem post_clients_publishes_once (env : Env) (w : World) (body : JsVal)
    (ch : Channel) (tbl : String) (item : JsVal) (content : String)
    (hch : w.channel = some ch)
    (hput : Effect.dynamoPut tbl item (.ok ()) ∈ (postClients env body w).trace)
    (hjson : env.jsonStringify
      (.obj [("eventType", .str "ClientCreated"), ("data", itemOf body)]) = .ok content) :
    queueSends (postClients env body w).trace = [("client-events", content, true)] ∧
    publishCalls (postClients env body w).trace = [("ClientCreated", itemOf body)] ∧
    storePuts (postClients env body w).trace = [("Clients_gr8", itemOf body)] ∧
    responses (postClients env body w).trace = [(201, itemOf body)] ∧
    itemOf body = .obj [("ci", field body "ci"), ("firstName", field body "firstName"),
        ("lastName", field body "lastName"), ("phone", field body "phone"),
        ("address", field body "address")] := by
  obtain ⟨hn, hp⟩ := put_ok_of_mem env body w tbl item hput
  obtain ⟨c⟩ := w
  simp only at hch
  subst hch
  refine ⟨?_, publishCalls_put_ok env body _ hn hp, storePuts_put_ok env body _ hn hp,
    responses_put_ok env body _ hn hp, rfl⟩
  rw [queueSends_put_ok env body _ hn hp]
  obtain ⟨last, hrun, -, -, hq, -⟩ :=
    publishEvent_sends env "ClientCreated" (itemOf body) ch content hjson
  rw [hrun]
  show ("client-events", content, true) :: queueSends [last] = _
  rw [hq]

/-- C8 at the documented scenario: one persistent message with the JSON text of
the event on `client-events`. -/
theorem post_clients_publishes_once_witness :
    queueSends (postClients happyEnv scenarioBody ⟨some openChannel⟩).trace =
      [("client-events", scenarioEventText, true)] ∧
    storePuts (postClients happyEnv scenarioBody ⟨some openChannel⟩).trace =
      [("Clients_gr8", scenarioBody)] ∧
    responses (postClients happyEnv scenarioBody ⟨some openChannel⟩).trace =
      [(201, scenarioBody)] :=
  have h := post_clients_publishes_once happyEnv ⟨some openChannel⟩ scenarioBody
    openChannel tableName scenarioBody scenarioEventText rfl
    (List.Mem.tail _ (List.Mem.head _)) rfl
  ⟨h.1, h.2.2.1, h.2.2.2.1⟩

/-- C9: the handler is not idempotent.  Handling the same body twice in
sequence, the store put succeeding both times and `channel` being set, gives two
201 responses with the same body, two store puts of the same item (so under the
same `ci`), two `ClientCreated` publishes and two queue sends; the first request
leaves the module state as it was, so the second is handled exactly as it would
have been without the first. -/
theorem post_clients_twice (env1 env2 : Env) (w : World) (body : JsVal) (ch : Channel)
    (tbl1 tbl2 : String) (item1 item2 : JsVal) (content1 content2 : String)
    (hch : w.channel = some ch)
    (hput1 : Effect.dynamoPut tbl1 item1 (.ok ()) ∈ (postClients env1 body w).trace)
    (hput2 : Effect.dynamoPut tbl2 item2 (.ok ()) ∈
      (postClients env2 body (postClients env1 body w).world).trace)
    (hjson1 : env1.jsonStringify (eventOf "ClientCreated" (itemOf body)) = .ok content1)
    (hjson2 : env2.jsonStringify (eventOf "ClientCreated" (itemOf body)) = .ok content2) :
    responses ((postClients env1 body w).trace ++
        (postClients env2 body (postClients env1 body w).world).trace) =
      [(201, itemOf body), (201, itemOf body)] ∧
    storePuts ((postClients env1 body w).trace ++
        (postClients env2 body (postClients env1 body w).world).trace) =
      [("Clients_gr8", itemOf body), ("Clients_gr8", itemOf body)] ∧
    publishCalls ((postClients env1 body w).trace ++
        (postClients env2 body (postClients env1 body w).world).trace) =
      [("ClientCreated", itemOf body), ("ClientCreated", itemOf body)] ∧
    queueSends ((postClients env1 body w).trace ++
        (postClients env2 body (postClients env1 body w).world).trace) =
      [("client-events", content1, true), ("client-events", content2, true)] ∧
    field (itemOf body) "ci" = field body "ci" ∧
    (postClients env1 body w).world = w ∧
    postClients env2 body (postClients env1 body w).world = postClients env2 body w := by
  have hw : (postClients env1 body w).world = w := postClients_world env1 body w
  rw [hw] at hput2 ⊢
  obtain ⟨hn, hp1⟩ := put_ok_of_mem env1 body w tbl1 item1 hput1
  obtain ⟨-, hp2⟩ := put_ok_of_mem env2 body w tbl2 item2 hput2
  obtain ⟨c⟩ := w
  simp only at hch
  subst hch
  obtain ⟨last1, hrun1, -, -, hq1, -⟩ :=
    publishEvent_sends env1 "ClientCreated" (itemOf body) ch content1 hjson1
  obtain ⟨last2, hrun2, -, -, hq2, -⟩ :=
    publishEvent_sends env2 "ClientCreated" (itemOf body) ch content2 hjson2
  have hs1 : queueSends (postClients env1 body ⟨some ch⟩).trace =
      [("client-events", content1, true)] := by
    rw [queueSends_put_ok env1 body _ hn hp1, hrun1]
    show ("client-events", content1, true) :: queueSends [last1] = _
    rw [hq1]
  have hs2 : queueSends (postClients env2 body ⟨some ch⟩).trace =
      [("client-events", content2, true)] := by
    rw [queueSends_put_ok env2 body _ hn hp2, hrun2]
    show ("client-events", content2, true) :: queueSends [last2] = _
    rw [hq2]
  refine ⟨?_, ?_, ?_, ?_, rfl, rfl, rfl⟩
  · rw [responses_append, responses_put_ok env1 body _ hn hp1,
      responses_put_ok env2 body _ hn hp2]; rfl
  · rw [storePuts_append, storePuts_put_ok env1 body _ hn hp1,
      storePuts_put_ok env2 body _ hn hp2]; rfl
  · rw [publishCalls_append, publishCalls_put_ok env1 body _ hn hp1,
      publishCalls_put_ok env2 body _ hn hp2]; rfl
  · rw [queueSends_append, hs1, hs2]; rfl

/-- C9 at the documented scenario, handled twice. -/
theorem post_clients_twice_witness :
    responses ((postClients happyEnv scenarioBody ⟨some openChannel⟩).trace ++
        (postClients happyEnv scenarioBody
          (postClients happyEnv scenarioBody ⟨some openChannel⟩).world).trace) =
      [(201, scenarioBody), (201, scenarioBody)] ∧
    storePuts ((postClients happyEnv scenarioBody ⟨some openChannel⟩).trace ++
        (postClients happyEnv scenarioBody
          (postClients happyEnv scenarioBody ⟨some openChannel⟩).world).trace) =
      [("Clients_gr8", scenarioBody), ("Clients_gr8", scenarioBody)] ∧
    queueSends ((postClients happyEnv scenarioBody ⟨some openChannel⟩).trace ++
        (postClients happyEnv scenarioBody
          (postClients happyEnv scenarioBody ⟨some openChannel⟩).world).trace) =
      [("client-events", scenarioEventText, true),
       ("client-events", scenarioEventText, true)] :=
  have h := post_clients_twice happyEnv happyEnv ⟨some openChannel⟩ scenarioBody
    openChannel tableName tableName scenarioBody scenarioBody scenarioEventText
    scenarioEventText rfl (List.Mem.tail _ (List.Mem.head _))
    (List.Mem.tail _ (List.Mem.head _)) rfl rfl
  ⟨h.1, h.2.1, h.2.2.2.1⟩

/-! ## `getSecretFromLambda`, path by path -/

/-- The invocation is rejected. -/
theorem getSecret_invoke_error (env : Env) (w : World) (e : JsVal)
    (h1 : env.lambdaInvoke lambdaFunctionName = .error e) :
    getSecretFromLambda env w = ⟨.error e, w,
      [.lambdaInvoke lambdaFunctionName,
       .consoleError "Error invoking Lambda function:" e]⟩ := by
  simp [getSecretFromLambda, Js.andThen, Js.attempt, Js.raise, Js.ret, emit, settle, getProp, h1]

/-- The response is `undefined` or `null`: reading `Payload` throws. -/
theorem getSecret_response_nullish (env : Env) (w : World) (response : JsVal)
    (h1 : env.lambdaInvoke lambdaFunctionName = .ok response)
    (h2 : response.isNullish = true) :
    getSecretFromLambda env w = ⟨.error (typeError "Payload"), w,
      [.lambdaInvoke lambdaFunctionName,
       .consoleError "Error invoking Lambda function:" (typeError "Payload")]⟩ := by
  simp [getSecretFromLambda, Js.andThen, Js.attempt, Js.raise, Js.ret, emit, settle, getProp, h1, h2]

/-- The payload does not parse. -/
theorem getSecret_payload_unparsable (env : Env) (w : World) (response e : JsVal)
    (h1 : env.lambdaInvoke lambdaFunctionName = .ok response)
    (h2 : response.isNullish = false)
    (h3 : env.jsonParse (field response "Payload") = .error e) :
    getSecretFromLambda env w = ⟨.error e, w,
      [.lambdaInvoke lambdaFunctionName,
       .consoleError "Error invoking Lambda function:" e]⟩ := by
  simp [getSecretFromLambda, Js.andThen, Js.attempt, Js.raise, Js.ret, emit, settle, getProp, h1, h2, h3]

/-- The payload parses to `null`: reading `errorMessage` throws. -/
theorem getSecret_payload_nullish (env : Env) (w : World) (response payload : JsVal)
    (h1 : env.lambdaInvoke lambdaFunctionName = .ok response)
    (h2 : response.isNullish = false)
    (h3 : env.jsonParse (field response "Payload") = .ok payload)
    (h4 : payload.isNullish = true) :
    getSecretFromLambda env w = ⟨.error (typeError "errorMessage"), w,
      [.lambdaInvoke lambdaFunctionName,
       .consoleError "Error invoking Lambda function:" (typeError "errorMessage")]⟩ := by
  simp [getSecretFromLambda, Js.andThen, Js.attempt, Js.raise, Js.ret, emit, settle, getProp, h1, h2, h3, h4]

/-- The payload carries a truthy `errorMessage`. -/
theorem getSecret_error_message (env : Env) (w : World) (response payload : JsVal)
    (h1 : env.lambdaInvoke lambdaFunctionName = .ok response)
    (h2 : response.isNullish = false)
    (h3 : env.jsonParse (field response "Payload") = .ok payload)
    (h4 : payload.isNullish = false)
    (h5 : truthy (field payload "errorMessage") = true) :
    getSecretFromLambda env w =
      ⟨.error (.exn "Error" (field payload "errorMessage")), w,
        [.lambdaInvoke lambdaFunctionName,
         .consoleError "Error invoking Lambda function:"
           (.exn "Error" (field payload "errorMessage"))]⟩ := by
  simp [getSecretFromLambda, Js.andThen, Js.attempt, Js.raise, Js.ret, emit, settle, getProp, h1, h2, h3, h4, h5]

/-- The body does not parse. -/
theorem getSecret_body_unparsable (env : Env) (w : World) (response payload e : JsVal)
    (h1 : env.lambdaInvoke lambdaFunctionName = .ok response)
    (h2 : response.isNullish = false)
    (h3 : env.jsonParse (field response "Payload") = .ok payload)
    (h4 : payload.isNullish = false)
    (h5 : truthy (field payload "errorMessage") = false)
    (h6 : env.jsonParse (field payload "body") = .error e) :
    getSecretFromLambda env w = ⟨.error e, w,
      [.lambdaInvoke lambdaFunctionName,
       .consoleError "Error invoking Lambda function:" e]⟩ := by
  simp [getSecretFromLambda, Js.andThen, Js.attempt, Js.raise, Js.ret, emit, settle, getProp, h1, h2, h3, h4, h5, h6]

/-- The body parses to `null`: reading `secret` throws. -/
theorem getSecret_body_nullish (env : Env) (w : World) (response payload body : JsVal)
    (h1 : env.lambdaInvoke lambdaFunctionName = .ok response)
    (h2 : response.isNullish = false)
    (h3 : env.jsonParse (field response "Payload") = .ok payload)
    (h4 : payload.isNullish = false)
    (h5 : truthy (field payload "errorMessage") = false)
    (h6 : env.jsonParse (field payload "body") = .ok body)
    (h7 : body.isNullish = true) :
    getSecretFromLambda env w = ⟨.error (typeError "secret"), w,
      [.lambdaInvoke lambdaFunctionName,
       .consoleError "Error invoking Lambda function:" (typeError "secret")]⟩ := by
  simp [getSecretFromLambda, Js.andThen, Js.attempt, Js.raise, Js.ret, emit, settle, getProp, h1, h2, h3, h4, h5, h6, h7]

/-- The secret does not parse. -/
theorem getSecret_secret_unparsable (env : Env) (w : World)
    (response payload body e : JsVal)
    (h1 : env.lambdaInvoke lambdaFunctionName = .ok response)
    (h2 : response.isNullish = false)
    (h3 : env.jsonParse (field response "Payload") = .ok payload)
    (h4 : payload.isNullish = false)
    (h5 : truthy (field payload "errorMessage") = false)
    (h6 : env.jsonParse (field payload "body") = .ok body)
    (h7 : body.isNullish = false)
    (h8 : env.jsonParse (field body "secret") = .error e) :
    getSecretFromLambda env w = ⟨.error e, w,
      [.lambdaInvoke lambdaFunctionName,
       .consoleError "Error invoking Lambda function:" e]⟩ := by
  simp [getSecretFromLambda, Js.andThen, Js.attempt, Js.raise, Js.ret, emit, settle, getProp, h1, h2, h3, h4, h5, h6, h7, h8]

/-- Every step succeeds: the parsed secret is returned. -/
theorem getSecret_parsed (env : Env) (w : World) (response payload body secrets : JsVal)
    (h1 : env.lambdaInvoke lambdaFunctionName = .ok response)
    (h2 : response.isNullish = false)
    (h3 : env.jsonParse (field response "Payload") = .ok payload)
    (h4 : payload.isNullish = false)
    (h5 : truthy (field payload "errorMessage") = false)
    (h6 : env.jsonParse (field payload "body") = .ok body)
    (h7 : body.isNullish = false)
    (h8 : env.jsonParse (field body "secret") = .ok secrets) :
    getSecretFromLambda env w = ⟨.ok secrets, w, [.lambdaInvoke lambdaFunctionName]⟩ := by
  simp [getSecretFromLambda, Js.andThen, Js.attempt, Js.raise, Js.ret, emit, settle, getProp, h1, h2, h3, h4, h5, h6, h7, h8]

/-- The two shapes of a run of `getSecretFromLambda`: a value after the single
invocation, or a logged and rethrown error.  The module state is untouched. -/
theorem getSecret_cases (env : Env) (w : World) :
    (∃ v, getSecretFromLambda env w = ⟨.ok v, w, [.lambdaInvoke lambdaFunctionName]⟩) ∨
    (∃ e, getSecretFromLambda env w = ⟨.error e, w,
      [.lambdaInvoke lambdaFunctionName,
       .consoleError "Error invoking Lambda function:" e]⟩) := by
  cases h1 : env.lambdaInvoke lambdaFunctionName with
  | error e => exact Or.inr ⟨e, getSecret_invoke_error env w e h1⟩
  | ok response =>
  cases h2 : response.isNullish with
  | true => exact Or.inr ⟨_, getSecret_response_nullish env w response h1 h2⟩
  | false =>
  cases h3 : env.jsonParse (field response "Payload") with
  | error e => exact Or.inr ⟨e, getSecret_payload_unparsable env w response e h1 h2 h3⟩
  | ok payload =>
  cases h4 : payload.isNullish with
  | true => exact Or.inr ⟨_, getSecret_payload_nullish env w response payload h1 h2 h3 h4⟩
  | false =>
  cases h5 : truthy (field payload "errorMessage") with
  | true => exact Or.inr ⟨_, getSecret_error_message env w response payload h1 h2 h3 h4 h5⟩
  | false =>
  cases h6 : env.jsonParse (field payload "body") with
  | error e =>
    exact Or.inr ⟨e, getSecret_body_unparsable env w response payload e h1 h2 h3 h4 h5 h6⟩
  | ok body =>
  cases h7 : body.isNullish with
  | true =>
    exact Or.inr ⟨_, getSecret_body_nullish env w response payload body h1 h2 h3 h4 h5 h6 h7⟩
  | false =>
  cases h8 : env.jsonParse (field body "secret") with
  | error e =>
    exact Or.inr ⟨e, getSecret_secret_unparsable env w response payload body e
      h1 h2 h3 h4 h5 h6 h7 h8⟩
  | ok secrets =>
    exact Or.inl ⟨secrets, getSecret_parsed env w response payload body secrets
      h1 h2 h3 h4 h5 h6 h7 h8⟩

/-! ## `connectRabbitMQ`, path by path -/

/-- The broker cannot be reached. -/
theorem connect_unreachable (env : Env) (w : World) (e : JsVal)
    (h1 : env.amqpConnect brokerUri = .error e) :
    connectRabbitMQ env w = ⟨.ok (), w,
      [.amqpConnect brokerUri, .consoleError "Error connecting to RabbitMQ:" e]⟩ := by
  simp [connectRabbitMQ, Js.andThen, Js.attempt, emit, settle, h1]

/-- The connection opens but no channel can be created. -/
theorem connect_no_channel (env : Env) (w : World) (conn : Connection) (e : JsVal)
    (h1 : env.amqpConnect brokerUri = .ok conn)
    (h2 : conn.createChannel = .error e) :
    connectRabbitMQ env w = ⟨.ok (), w,
      [.amqpConnect brokerUri, .createChannel,
       .consoleError "Error connecting to RabbitMQ:" e]⟩ := by
  simp [connectRabbitMQ, Js.andThen, Js.attempt, emit, settle, h1, h2]

/-- The channel is created and assigned, then the queue declaration fails. -/
theorem connect_queue_refused (env : Env) (w : World) (conn : Connection) (ch : Channel)
    (e : JsVal)
    (h1 : env.amqpConnect brokerUri = .ok conn)
    (h2 : conn.createChannel = .ok ch)
    (h3 : ch.assertQueue queueName true = .error e) :
    connectRabbitMQ env w = ⟨.ok (), ⟨some ch⟩,
      [.amqpConnect brokerUri, .createChannel, .assertQueue queueName true,
       .consoleError "Error connecting to RabbitMQ:" e]⟩ := by
  simp [connectRabbitMQ, Js.andThen, Js.attempt, emit, settle, assignChannel, h1, h2, h3]

/-- Every broker step succeeds. -/
theorem connect_connected (env : Env) (w : World) (conn : Connection) (ch : Channel)
    (h1 : env.amqpConnect brokerUri = .ok conn)
    (h2 : conn.createChannel = .ok ch)
    (h3 : ch.assertQueue queueName true = .ok ()) :
    connectRabbitMQ env w = ⟨.ok (), ⟨some ch⟩,
      [.amqpConnect brokerUri, .createChannel, .assertQueue queueName true,
       .consoleLog "Connected to RabbitMQ" .undefined]⟩ := by
  simp [connectRabbitMQ, Js.andThen, Js.attempt, emit, settle, assignChannel, h1, h2, h3]

/-- In every case `connectRabbitMQ` returns normally, its first effect is the
connection attempt, it never listens and never configures the store. -/
theorem connect_shape (env : Env) (w : World) :
    (connectRabbitMQ env w).result = .ok () ∧
    (∃ rest, (connectRabbitMQ env w).trace = .amqpConnect brokerUri :: rest) ∧
    listens (connectRabbitMQ env w).trace = [] ∧
    storeSetup (connectRabbitMQ env w).trace = [] := by
  cases h1 : env.amqpConnect brokerUri with
  | error e => rw [connect_unreachable env w e h1]; exact ⟨rfl, ⟨_, rfl⟩, rfl, rfl⟩
  | ok conn =>
    cases h2 : conn.createChannel with
    | error e => rw [connect_no_channel env w conn e h1 h2]; exact ⟨rfl, ⟨_, rfl⟩, rfl, rfl⟩
    | ok ch =>
      cases h3 : ch.assertQueue queueName true with
      | error e =>
        rw [connect_queue_refused env w conn ch e h1 h2 h3]; exact ⟨rfl, ⟨_, rfl⟩, rfl, rfl⟩
      | ok u => rw [connect_connected env w conn ch h1 h2 h3]; exact ⟨rfl, ⟨_, rfl⟩, rfl, rfl⟩

/-! ## `startService`, path by path -/

/-- The fetch failed: the error is logged and the function returns. -/
theorem startService_fetch_failed (env : Env) (w : World) (e : JsVal)
    (hfetch : (getSecretFromLambda env w).result = .error e) :
    startService env w = ⟨.ok (), w,
      [.lambdaInvoke lambdaFunctionName,
       .consoleError "Error invoking Lambda function:" e,
       .consoleError "Error starting service: " e]⟩ := by
  rcases getSecret_cases env w with ⟨v, hv⟩ | ⟨e2, he⟩
  · rw [hv] at hfetch; cases hfetch
  · rw [he] at hfetch
    cases hfetch
    simp only [startService, he]
    rfl

/-- The fetch returned `null`: reading the access key throws before the store
is configured. -/
theorem startService_null_secrets (env : Env) (w : World) (secrets : JsVal)
    (hfetch : (getSecretFromLambda env w).result = .ok secrets)
    (hnull : secrets.isNullish = true) :
    startService env w = ⟨.error (typeError "AWS_ACCESS_KEY_ID"), w,
      [.lambdaInvoke lambdaFunctionName, .appUse "cors", .appUse "express.json"]⟩ := by
  rcases getSecret_cases env w with ⟨v, hv⟩ | ⟨e2, he⟩
  · rw [hv] at hfetch
    cases hfetch
    simp [startService, hv, Js.andThen, emit, settle, getProp, hnull]
  · rw [he] at hfetch; cases hfetch

/-- The fetch returned a value that is not nullish: the whole start-up runs. -/
theorem startService_started (env : Env) (w : World) (secrets : JsVal)
    (hfetch : (getSecretFromLambda env w).result = .ok secrets)
    (hval : secrets.isNullish = false) :
    startService env w = ⟨.ok (), (connectRabbitMQ env w).world,
      [.lambdaInvoke lambdaFunctionName, .appUse "cors", .appUse "express.json",
       .awsConfigUpdate region (field secrets "AWS_ACCESS_KEY_ID")
         (field secrets "AWS_SECRET_ACCESS_KEY"),
       .newDocumentClient, .appUse "/api-docs"] ++
      (connectRabbitMQ env w).trace ++
      [.route "POST" "/clients", .route "GET" "/", .listen 8094,
       .consoleLog "Client service listening at http://localhost:8094" .undefined]⟩ := by
  rcases getSecret_cases env w with ⟨v, hv⟩ | ⟨e2, he⟩
  · rw [hv] at hfetch
    cases hfetch
    have hres := (connect_shape env w).1
    cases hc : connectRabbitMQ env w with
    | mk r w2 t2 =>
      rw [hc] at hres
      simp only at hres
      subst hres
      simp [startService, hv, Js.andThen, emit, settle, getProp, hval, hc, port]
  · rw [he] at hfetch; cases hfetch

/-- With `channel` unset the handler sends nothing to the queue. -/
theorem queueSends_unset (env : Env) (body : JsVal) :
    queueSends (postClients env body ⟨none⟩).trace = [] := by
  cases hn : body.isNullish with
  | true => rw [postClients_nullish env body _ hn]; rfl
  | false =>
    cases hp : env.dynamoPut tableName (itemOf body) with
    | ok u => rw [queueSends_put_ok env body _ hn hp, publishEvent_unset]; rfl
    | error e => rw [postClients_put_error env body _ e hn hp]; rfl

/-! ## Claims about start-up -/

/-- C6, amended: when `getSecretFromLambda` fails, `startService` returns
normally without calling `listen`, configuring the store or contacting the
broker; when it succeeds with a value that is not `null` or `undefined`,
`startService` configures the store, runs the whole broker connection attempt
and then calls `listen` exactly once, on port 8094, whatever the outcome of that
attempt. -/
theorem start_service_listens (env : Env) (w : World) :
    (∀ e, (getSecretFromLambda env w).result = .error e →
      (startService env w).result = .ok () ∧
      listens (startService env w).trace = [] ∧
      storeSetup (startService env w).trace = [] ∧
      brokerSetup (startService env w).trace = []) ∧
    (∀ secrets, (getSecretFromLambda env w).result = .ok secrets →
      secrets.isNullish = false →
      (startService env w).result = .ok () ∧
      listens (startService env w).trace = [8094] ∧
      ∃ before after,
        (startService env w).trace = before ++ (connectRabbitMQ env w).trace ++ after ∧
        listens before = [] ∧ listens (connectRabbitMQ env w).trace = [] ∧
        listens after = [8094] ∧
        brokerSetup before = [] ∧ brokerSetup after = [] ∧
        Effect.amqpConnect brokerUri ∈ (connectRabbitMQ env w).trace ∧
        storeSetup before =
          [.awsConfigUpdate region (field secrets "AWS_ACCESS_KEY_ID")
             (field secrets "AWS_SECRET_ACCESS_KEY"), .newDocumentClient]) := by
  constructor
  · intro e hfetch
    rw [startService_fetch_failed env w e hfetch]
    exact ⟨rfl, rfl, rfl, rfl⟩
  · intro secrets hfetch hval
    obtain ⟨-, ⟨rest, hrest⟩, hl, -⟩ := connect_shape env w
    rw [startService_started env w secrets hfetch hval]
    refine ⟨rfl, ?_, _, _, rfl, rfl, hl, rfl, rfl, rfl, ?_, rfl⟩
    · simp only [listens_append, hl]; rfl
    · rw [hrest]; exact List.Mem.head _

/-- C6, amended, on three start-ups: the broker reachable, the broker down, the
Lambda invocation rejected. -/
theorem start_service_listens_witness :
    listens (startService happyEnv World.initial).trace = [8094] ∧
    listens (startService brokerDownEnv World.initial).trace = [8094] ∧
    (startService lambdaDownEnv World.initial).result = .ok () ∧
    listens (startService lambdaDownEnv World.initial).trace = [] ∧
    brokerSetup (startService lambdaDownEnv World.initial).trace = [] :=
  have down := (start_service_listens lambdaDownEnv World.initial).1
    (.exn "Error" (.str "AccessDenied")) rfl
  ⟨((start_service_listens happyEnv World.initial).2 (.obj []) rfl rfl).2.1,
   ((start_service_listens brokerDownEnv World.initial).2 (.obj []) rfl rfl).2.1,
   down.1, down.2.1, down.2.2.2⟩

/-- C6 as stated fails: with the secret text `null` the fetch succeeds (it
returns `null`), yet `startService` throws a `TypeError` while reading the
access key and never calls `listen`. -/
theorem start_service_null_secret :
    (getSecretFromLambda nullSecretEnv World.initial).result = .ok .null ∧
    (startService nullSecretEnv World.initial).result =
      .error (typeError "AWS_ACCESS_KEY_ID") ∧
    listens (startService nullSecretEnv World.initial).trace = [] ∧
    storeSetup (startService nullSecretEnv World.initial).trace = [] ∧
    brokerSetup (startService nullSecretEnv World.initial).trace = [] :=
  ⟨rfl, rfl, rfl, rfl, rfl⟩

/-- C7, amended: `getSecretFromLambda` raises when the invocation is rejected,
when the parsed payload has a truthy `errorMessage`, when the payload, the body
or the secret does not parse, and when the response, the parsed payload or the
parsed body is `null` or `undefined` (the property read throws); when none of
these happens it returns the value parsed from `body.secret`. -/
theorem get_secret_outcomes (env : Env) (w : World) :
    (∀ e, env.lambdaInvoke lambdaFunctionName = .error e →
      (getSecretFromLambda env w).result = .error e) ∧
    (∀ response e, env.lambdaInvoke lambdaFunctionName = .ok response →
      response.isNullish = false →
      env.jsonParse (field response "Payload") = .error e →
      (getSecretFromLambda env w).result = .error e) ∧
    (∀ response payload, env.lambdaInvoke lambdaFunctionName = .ok response →
      response.isNullish = false →
      env.jsonParse (field response "Payload") = .ok payload →
      payload.isNullish = false →
      truthy (field payload "errorMessage") = true →
      (getSecretFromLambda env w).result =
        .error (.exn "Error" (field payload "errorMessage"))) ∧
    (∀ response payload e, env.lambdaInvoke lambdaFunctionName = .ok response →
      response.isNullish = false →
      env.jsonParse (field response "Payload") = .ok payload →
      payload.isNullish = false →
      truthy (field payload "errorMessage") = false →
      env.jsonParse (field payload "body") = .error e →
      (getSecretFromLambda env w).result = .error e) ∧
    (∀ response payload body e, env.lambdaInvoke lambdaFunctionName = .ok response →
      response.isNullish = false →
      env.jsonParse (field response "Payload") = .ok payload →
      payload.isNullish = false →
      truthy (field payload "errorMessage") = false →
      env.jsonParse (field payload "body") = .ok body →
      body.isNullish = false →
      env.jsonParse (field body "secret") = .error e →
      (getSecretFromLambda env w).result = .error e) ∧
    (∀ response, env.lambdaInvoke lambdaFunctionName = .ok response →
      response.isNullish = true →
      (getSecretFromLambda env w).result = .error (typeError "Payload")) ∧
    (∀ response payload, env.lambdaInvoke lambdaFunctionName = .ok response →
      response.isNullish = false →
      env.jsonParse (field response "Payload") = .ok payload →
      payload.isNullish = true →
      (getSecretFromLambda env w).result = .error (typeError "errorMessage")) ∧
    (∀ response payload body, env.lambdaInvoke lambdaFunctionName = .ok response →
      response.isNullish = false →
      env.jsonParse (field response "Payload") = .ok payload →
      payload.isNullish = false →
      truthy (field payload "errorMessage") = false →
      env.jsonParse (field payload "body") = .ok body →
      body.isNullish = true →
      (getSecretFromLambda env w).result = .error (typeError "secret")) ∧
    (∀ response payload body secrets, env.lambdaInvoke lambdaFunctionName = .ok response →
      response.isNullish = false →
      env.jsonParse (field response "Payload") = .ok payload →
      payload.isNullish = false →
      truthy (field payload "errorMessage") = false →
      env.jsonParse (field payload "body") = .ok body →
      body.isNullish = false →
      env.jsonParse (field body "secret") = .ok secrets →
      (getSecretFromLambda env w).result = .ok secrets) := by
  refine ⟨?_, ?_, ?_, ?_, ?_, ?_, ?_, ?_, ?_⟩
  · intro e h1
    rw [getSecret_invoke_error env w e h1]
  · intro response e h1 h2 h3
    rw [getSecret_payload_unparsable env w response e h1 h2 h3]
  · intro response payload h1 h2 h3 h4 h5
    rw [getSecret_error_message env w response payload h1 h2 h3 h4 h5]
  · intro response payload e h1 h2 h3 h4 h5 h6
    rw [getSecret_body_unparsable env w response payload e h1 h2 h3 h4 h5 h6]
  · intro response payload body e h1 h2 h3 h4 h5 h6 h7 h8
    rw [getSecret_secret_unparsable env w response payload body e h1 h2 h3 h4 h5 h6 h7 h8]
  · intro response h1 h2
    rw [getSecret_response_nullish env w response h1 h2]
  · intro response payload h1 h2 h3 h4
    rw [getSecret_payload_nullish env w response payload h1 h2 h3 h4]
  · intro response payload body h1 h2 h3 h4 h5 h6 h7
    rw [getSecret_body_nullish env w response payload body h1 h2 h3 h4 h5 h6 h7]
  · intro response payload body secrets h1 h2 h3 h4 h5 h6 h7 h8
    rw [getSecret_parsed env w response payload body secrets h1 h2 h3 h4 h5 h6 h7 h8]

/-- C7, amended, on three answers of the Lambda: a usable secret, a payload
with the `errorMessage` "boom", a rejected invocation. -/
theorem get_secret_outcomes_witness :
    (getSecretFromLambda happyEnv World.initial).result = .ok (.obj []) ∧
    (getSecretFromLambda (envOf failedPayloadText (.ok ⟨.ok openChannel⟩) (.ok ()))
      World.initial).result = .error (.exn "Error" (.str "boom")) ∧
    (getSecretFromLambda lambdaDownEnv World.initial).result =
      .error (.exn "Error" (.str "AccessDenied")) :=
  ⟨(get_secret_outcomes happyEnv World.initial).2.2.2.2.2.2.2.2
      (.obj [("StatusCode", .num 200), ("Payload", .str payloadText)])
      (.obj [("body", .str bodyText)]) (.obj [("secret", .str emptyObjectText)]) (.obj [])
      rfl rfl rfl rfl rfl rfl rfl rfl,
   (get_secret_outcomes (envOf failedPayloadText (.ok ⟨.ok openChannel⟩) (.ok ()))
      World.initial).2.2.1
      (.obj [("StatusCode", .num 200), ("Payload", .str failedPayloadText)])
      (.obj [("errorMessage", .str "boom")]) rfl rfl rfl rfl rfl,
   (get_secret_outcomes lambdaDownEnv World.initial).1 _ rfl⟩

/-- C7 as stated fails twice.  A payload that contains the field
`errorMessage` with the value `""` does not make the function fail: the secret
is returned.  A payload whose text is `null` parses, contains no `errorMessage`
and follows a successful invocation, yet the function throws a `TypeError`
instead of returning. -/
theorem get_secret_claim_fails :
    (emptyMessageEnv.jsonParse (.str emptyMessagePayloadText) =
        .ok (.obj [("errorMessage", .str ""), ("body", .str bodyText)]) ∧
      hasField (.obj [("errorMessage", .str ""), ("body", .str bodyText)])
        "errorMessage" = true ∧
      (getSecretFromLambda emptyMessageEnv World.initial).result = .ok (.obj [])) ∧
    (nullPayloadEnv.lambdaInvoke lambdaFunctionName =
        .ok (.obj [("StatusCode", .num 200), ("Payload", .str "null")]) ∧
      nullPayloadEnv.jsonParse (.str "null") = .ok .null ∧
      hasField .null "errorMessage" = false ∧
      (getSecretFromLambda nullPayloadEnv World.initial).result =
        .error (typeError "errorMessage")) :=
  ⟨⟨rfl, rfl, rfl⟩, ⟨rfl, rfl, rfl, rfl⟩⟩

/-- C10, amended: `connectRabbitMQ` never raises, whichever step fails; when
connecting or creating the channel fails, `channel` is still unset afterwards,
and from then on every `publishEvent` and every handled request sends nothing
and leaves `channel` unset. -/
theorem connect_failure_disables_publisher (env : Env) (w : World) :
    (connectRabbitMQ env w).result = .ok () ∧
    (w.channel = none →
      ((∃ e, env.amqpConnect brokerUri = .error e) ∨
        (∃ conn e, env.amqpConnect brokerUri = .ok conn ∧ conn.createChannel = .error e)) →
      (connectRabbitMQ env w).world.channel = none ∧
      ∀ (env2 : Env) (eventType : String) (data body : JsVal),
        queueSends
          (publishEvent env2 eventType data (connectRabbitMQ env w).world).trace = [] ∧
        (publishEvent env2 eventType data (connectRabbitMQ env w).world).world.channel
          = none ∧
        queueSends (postClients env2 body (connectRabbitMQ env w).world).trace = [] ∧
        (postClients env2 body (connectRabbitMQ env w).world).world.channel = none) := by
  refine ⟨(connect_shape env w).1, ?_⟩
  intro hw hfail
  obtain ⟨c⟩ := w
  simp only at hw
  subst hw
  have hworld : (connectRabbitMQ env ⟨none⟩).world = ⟨none⟩ := by
    rcases hfail with ⟨e, h1⟩ | ⟨conn, e, h1, h2⟩
    · rw [connect_unreachable env _ e h1]
    · rw [connect_no_channel env _ conn e h1 h2]
  rw [hworld]
  refine ⟨rfl, ?_⟩
  intro env2 eventType data body
  refine ⟨?_, ?_, queueSends_unset env2 body, ?_⟩
  · rw [publishEvent_unset]; rfl
  · rw [publishEvent_unset]
  · rw [postClients_world]

/-- C10, amended, with an unreachable broker. -/
theorem connect_failure_disables_publisher_witness :
    (connectRabbitMQ brokerDownEnv World.initial).result = .ok () ∧
    (connectRabbitMQ brokerDownEnv World.initial).world.channel = none ∧
    queueSends (postClients happyEnv scenarioBody
      (connectRabbitMQ brokerDownEnv World.initial).world).trace = [] :=
  have h := connect_failure_disables_publisher brokerDownEnv World.initial
  have h2 := h.2 rfl (Or.inl ⟨_, rfl⟩)
  ⟨h.1, h2.1, (h2.2 happyEnv "ClientCreated" scenarioBody scenarioBody).2.2.1⟩

/-- C10 as stated fails: when the queue declaration is the step that fails,
`connectRabbitMQ` returns normally but `channel` is set (it was assigned before
the declaration), and a later `publishEvent` calls `sendToQueue`. -/
theorem connect_queue_refused_keeps_channel :
    undeclaredChannel.assertQueue queueName true =
      .error (.exn "Error" (.str "assertQueue failed")) ∧
    (connectRabbitMQ queueRefusedEnv World.initial).result = .ok () ∧
    (connectRabbitMQ queueRefusedEnv World.initial).world.channel.isSome = true ∧
    queueSends (publishEvent queueRefusedEnv "ClientCreated" scenarioBody
      (connectRabbitMQ queueRefusedEnv World.initial).world).trace =
        [("client-events", scenarioEventText, true)] :=
  ⟨rfl, rfl, rfl, rfl⟩

end ClientService
